import Mathlib

/-
Verification development for the StimuliGenerator repository.

The repository's core (shared by `stimuli_generator/main.py` and
`stimuli_generator/video_writer.py`) parses an SVG path string into a node
list, builds a Bezier path from it, samples the path at a derived time step
and serializes the sampled points.  This file gives a shallow embedding of
that core in Lean and proves or refutes the frozen claims about it.

Modelling conventions:
 * Python floats are modelled as rationals (ℚ).  All constants appearing in
   the claims are exactly representable, and the source's `decimal.Decimal`
   step accumulator makes the sampling loop arithmetic exact, so ℚ is a
   faithful carrier for every computation a claim mentions.
 * Python exceptions are modelled by an error enumeration `PyErr`; a Python
   function that can raise is embedded as `Except PyErr _`, and one whose
   loop can also fail to terminate as `PyResult _` (with an explicit
   `diverge` denotation backed by a fuel lemma).
 * The third-party `beziers` library (BezierPath, pointAtTime, length) is
   not part of the repository; the parts of it the claims mention are
   modelled from the specification, as marked in their doc comments.
-/

namespace StimuliGen

/-- A 2D point, as the `beziers.point.Point` values flowing through the code. -/
structure Point where
  x : ℚ
  y : ℚ
deriving DecidableEq, Repr

/-- The node role tags used by `parse_svg_str`: the string `"curve"`
(an on-curve anchor) or `"offcurve"` (a Bezier control point). -/
inductive NodeType where
  | curve
  | offcurve
deriving DecidableEq, Repr

/-- `beziers.path.representations.Nodelist.Node` as constructed by
`parse_svg_str`: coordinates plus a role tag. -/
structure Node where
  x : ℚ
  y : ℚ
  type : NodeType
deriving DecidableEq, Repr

/-- The Python exceptions that the embedded repository code can raise. -/
inductive PyErr where
  | valueError        -- e.g. float() on an unparsable token
  | indexError        -- e.g. list subscript out of range
  | syntaxErr         -- e.g. xml.etree.ElementTree.ParseError on bad XML
  | assertionErr      -- a failing assert statement
  | zeroDivisionErr   -- division by zero
  | nameErr           -- `del` of a never-assigned variable
  | systemExit        -- sys.exit()
deriving DecidableEq, Repr

/-- Splitting a character list at every character satisfying `p`, keeping
empty fields, as Python's `re.split` / `str.split(sep)` do: the delimiter
occurrences are discarded and the fields between them are returned. -/
def splitCharList (p : Char → Bool) : List Char → List (List Char)
  | [] => [[]]
  | c :: rest =>
    let r := splitCharList p rest
    if p c then [] :: r
    else
      match r with
      | ts :: tss => (c :: ts) :: tss
      | [] => [[c]]

/-- Decimal digit run to a natural number (most significant first). -/
def digitsVal (cs : List Char) : ℕ :=
  cs.foldl (fun n c => 10 * n + (c.toNat - 48)) 0

/-- Python's `float(token)` on a whitespace-free token, returning `none` where
Python raises `ValueError`.  Modelled for finite decimal literals: optional
sign, digits with an optional fractional part, and an optional exponent.
(`inf`/`nan` and digit-group underscores are outside the model; the
repository's SVG inputs contain only plain decimal literals.) -/
def pyFloat (cs : List Char) : Option ℚ :=
  let sgncs : ℤ × List Char :=
    match cs with
    | '+' :: r => (1, r)
    | '-' :: r => (-1, r)
    | _ => (1, cs)
  let ip := sgncs.2.takeWhile Char.isDigit
  let rest := sgncs.2.dropWhile Char.isDigit
  let fprest : List Char × List Char :=
    match rest with
    | '.' :: r => (r.takeWhile Char.isDigit, r.dropWhile Char.isDigit)
    | _ => ([], rest)
  let experest : Bool × ℤ × List Char :=
    match fprest.2 with
    | 'e' :: r | 'E' :: r =>
      let sgnr : ℤ × List Char :=
        match r with
        | '+' :: rr => (1, rr)
        | '-' :: rr => (-1, rr)
        | _ => (1, r)
      let ed := sgnr.2.takeWhile Char.isDigit
      (!ed.isEmpty, sgnr.1 * digitsVal ed, sgnr.2.dropWhile Char.isDigit)
    | _ => (true, 0, fprest.2)
  if (ip.isEmpty && fprest.1.isEmpty) || !experest.2.2.isEmpty || !experest.1 then
    none
  else
    -- the exact decimal value sign · (ip.fp) · 10^exp, as an integer ratio
    let mant : ℤ :=
      sgncs.1 * ((digitsVal ip : ℤ) * 10 ^ fprest.1.length + (digitsVal fprest.1 : ℤ))
    let ex : ℤ := experest.2.1 - (fprest.1.length : ℤ)
    some (if 0 ≤ ex then Rat.divInt (mant * 10 ^ ex.toNat) 1
      else Rat.divInt mant (10 ^ (-ex).toNat))

/-- `svg_part.strip(" ZM")`: drop the characters `' '`, `'Z'`, `'M'` from both
ends of the text. -/
def stripZM (cs : List Char) : List Char :=
  (((cs.dropWhile fun c => c == ' ' || c == 'Z' || c == 'M').reverse.dropWhile
    fun c => c == ' ' || c == 'Z' || c == 'M').reverse)

/-- The chunk texts of `parse_svg_str`:
`[svg_part.strip(" ZM").split("L") for svg_part in re.split(r"C|L", svg_str)]`
followed by taking element `[0]` of each inner list (as the second
comprehension does).  `re.split` discards the delimiters, so the command
letters `C`/`L` are not recorded.  `.split("L")[0]` is the prefix up to the
first `'L'` (in fact a no-op: the regex split already removed every `L`). -/
def chunkTexts (svg : List Char) : List (List Char) :=
  (splitCharList (fun c => c == 'C' || c == 'L') svg).map
    fun part => (stripZM part).takeWhile fun c => !(c == 'L')

/-- `elem[0].split()`: whitespace tokenization, dropping empty tokens. -/
def tokensOf (t : List Char) : List (List Char) :=
  (splitCharList Char.isWhitespace t).filter (· ≠ [])

/-- `[float(elem) for elem in elem[0].split()]` — the tokens are converted
left to right and the first unparsable one raises `ValueError`. -/
def floatsLoop : List (List Char) → Except PyErr (List ℚ)
  | [] => Except.ok []
  | tok :: rest =>
    match pyFloat tok with
    | none => Except.error PyErr.valueError
    | some v =>
      match floatsLoop rest with
      | Except.error e => Except.error e
      | Except.ok vs => Except.ok (v :: vs)

/-- Float conversion of one chunk's tokens. -/
def parseChunk (t : List Char) : Except PyErr (List ℚ) :=
  floatsLoop (tokensOf t)

/-- The chunks are converted left to right, the first failing chunk raising. -/
def chunksLoop : List (List Char) → Except PyErr (List (List ℚ))
  | [] => Except.ok []
  | t :: rest =>
    match parseChunk t with
    | Except.error e => Except.error e
    | Except.ok vs =>
      match chunksLoop rest with
      | Except.error e => Except.error e
      | Except.ok vss => Except.ok (vs :: vss)

/-- The second comprehension of `parse_svg_str`: keep the chunks whose text is
longer than one character and convert their tokens to floats. -/
def parsePaths (svg : List Char) : Except PyErr (List (List ℚ)) :=
  chunksLoop ((chunkTexts svg).filter fun t => t.length > 1)

/-- One iteration of the node-building loop of `parse_svg_str`.  A boundary
chunk (`i == 0 or i == len(paths) - 1`) contributes a single `"curve"` node
from `path[0], path[1]`; any other chunk contributes two `"offcurve"` nodes
and one `"curve"` node from `path[0] .. path[5]`.  A missing subscript raises
`IndexError`.  (The source's `assert (len(path) == 6, "...")` asserts a
non-empty tuple and therefore never fires; it is omitted.) -/
def nodesOfChunk (boundary : Bool) (path : List ℚ) : Except PyErr (List Node) :=
  if boundary then
    match path with
    | x :: y :: _ => Except.ok [⟨x, y, NodeType.curve⟩]
    | _ => Except.error PyErr.indexError
  else
    match path with
    | x0 :: y0 :: x1 :: y1 :: x2 :: y2 :: _ =>
        Except.ok [⟨x0, y0, NodeType.offcurve⟩, ⟨x1, y1, NodeType.offcurve⟩,
          ⟨x2, y2, NodeType.curve⟩]
    | _ => Except.error PyErr.indexError

/-- The `for i, path in enumerate(paths)` loop of `parse_svg_str`, appending
each chunk's nodes in order; `n` is `len(paths)` and `i` the running index. -/
def nodesLoop (n : ℕ) : ℕ → List (List ℚ) → Except PyErr (List Node)
  | _, [] => Except.ok []
  | i, p :: rest =>
    match nodesOfChunk (i == 0 || i == n - 1) p with
    | Except.error e => Except.error e
    | Except.ok ns =>
      match nodesLoop n (i + 1) rest with
      | Except.error e => Except.error e
      | Except.ok rest' => Except.ok (ns ++ rest')

/-- `parse_svg_str` of `main.py`/`video_writer.py`: tokenize the path string
into float chunks, then build the node list.  (`String.data` is the string's
character list; the whole pipeline is character-exact.) -/
def parse_svg_str (svg : String) : Except PyErr (List Node) :=
  match parsePaths svg.data with
  | Except.error e => Except.error e
  | Except.ok paths => nodesLoop paths.length 0 paths

/-- The node list a chunk contributes when no subscript fails (defaults are
never consulted on a successful parse); used to state structural claims. -/
def chunkShape (boundary : Bool) (p : List ℚ) : List Node :=
  if boundary then
    [⟨p.getD 0 0, p.getD 1 0, NodeType.curve⟩]
  else
    [⟨p.getD 0 0, p.getD 1 0, NodeType.offcurve⟩,
     ⟨p.getD 2 0, p.getD 3 0, NodeType.offcurve⟩,
     ⟨p.getD 4 0, p.getD 5 0, NodeType.curve⟩]

/-- The whole node list of a successful parse, chunk by chunk. -/
def chunkShapeList (n : ℕ) : ℕ → List (List ℚ) → List Node
  | _, [] => []
  | i, p :: rest => chunkShape (i == 0 || i == n - 1) p ++ chunkShapeList n (i + 1) rest

instance {ε α : Type} [DecidableEq ε] [DecidableEq α] : DecidableEq (Except ε α)
  | Except.ok a, Except.ok b =>
    if h : a = b then isTrue (by rw [h]) else isFalse (by simp [h])
  | Except.error a, Except.error b =>
    if h : a = b then isTrue (by rw [h]) else isFalse (by simp [h])
  | Except.ok _, Except.error _ => isFalse (by simp)
  | Except.error _, Except.ok _ => isFalse (by simp)

/-- A cubic Bezier segment: two anchors `p0`, `p3` and two control points
`p1`, `p2` (a straight segment has its control points coinciding with the
anchors). -/
structure CubicSeg where
  p0 : Point
  p1 : Point
  p2 : Point
  p3 : Point
deriving DecidableEq, Repr

/-- Modelled from the spec (§4.2): the standard cubic-Bezier blending formula
used by the third-party beziers library's segment evaluation. -/
def bezierAt (s : CubicSeg) (t : ℚ) : Point :=
  ⟨(1 - t) ^ 3 * s.p0.x + 3 * (1 - t) ^ 2 * t * s.p1.x
      + 3 * (1 - t) * t ^ 2 * s.p2.x + t ^ 3 * s.p3.x,
   (1 - t) ^ 3 * s.p0.y + 3 * (1 - t) ^ 2 * t * s.p1.y
      + 3 * (1 - t) * t ^ 2 * s.p2.y + t ^ 3 * s.p3.y⟩

/-- Modelled from the spec (§3): the third-party `beziers.path.BezierPath` as
the repository uses it — an ordered segment list together with the memoized
per-segment arc lengths.  The numeric arc-length values are produced by the
library's flattening approximation (square roots of coordinate differences);
no claim depends on their values, so they are carried as data of the model
rather than recomputed. -/
structure BezierPath where
  segs : List (CubicSeg × ℚ)
deriving DecidableEq, Repr

/-- `curve.length`: the memoized total arc length — the sum of the
per-segment lengths. -/
def BezierPath.length (p : BezierPath) : ℚ :=
  (p.segs.map Prod.snd).sum

/-- Walk the segments, consuming the distance `d` (a fraction of total length
already converted to length units) against cumulative segment lengths. -/
def pointAtTimeGo : List (CubicSeg × ℚ) → ℚ → Point
  | [], _ => ⟨0, 0⟩
  | [(seg, len)], d => bezierAt seg (if len = 0 then 1 else d / len)
  | (seg, len) :: rest, d =>
    if d < len then bezierAt seg (d / len) else pointAtTimeGo rest (d - len)

/-- Modelled from the spec (§4.2): `curve.pointAtTime(t)` of the third-party
beziers library — the global parameter `t ∈ [0, 1]` is mapped proportionally
by cumulative per-segment length onto a local parameter of the owning
segment, which is then evaluated with the cubic-Bezier blending formula. -/
def BezierPath.pointAtTime (p : BezierPath) (t : ℚ) : Point :=
  pointAtTimeGo p.segs (t * p.length)

/-- The denotation of a Python call: a value, a raised exception, or
non-termination. -/
inductive PyResult (α : Type) where
  | ok : α → PyResult α
  | exn : PyErr → PyResult α
  | diverge : PyResult α
deriving DecidableEq, Repr

/-- First element of a successfully returned list, if any. -/
def PyResult.okHead {α : Type} : PyResult (List α) → Option α
  | PyResult.ok l => l.head?
  | _ => none

/-- Mapping over the value of a successful call. -/
def PyResult.map {α β : Type} (f : α → β) : PyResult α → PyResult β
  | PyResult.ok a => PyResult.ok (f a)
  | PyResult.exn e => PyResult.exn e
  | PyResult.diverge => PyResult.diverge

/-- The generator body of `drange(x, y, jump)` (defined identically in
`main.py` and `video_writer.py`):
`while x < y: yield float(x); x += decimal.Decimal(jump)` run for at most
`fuel` iterations; `none` means the loop was still running when the fuel ran
out.  The `decimal.Decimal` accumulator makes the repeated addition exact,
so the yielded values are the exact sums over ℚ. -/
def drangeFuel (y jump : ℚ) : ℕ → ℚ → Option (List ℚ)
  | 0, _ => none
  | fuel + 1, x =>
    if x < y then (drangeFuel y jump fuel (x + jump)).map (x :: ·) else some []

/-- `list(drange(x, y, jump))`.  When `jump > 0` the chosen fuel
`⌈(y-x)/jump⌉ + 1` is sufficient (`drangeFuel_enough`), so the result is the
loop's full output; when `jump ≤ 0` the loop never terminates
(`drangeFuel_nonpos`), and the result is `none` for every fuel. -/
def drange (x y jump : ℚ) : Option (List ℚ) :=
  drangeFuel y jump ((⌈(y - x) / jump⌉).toNat + 1) x

/-- The sampling loop shared verbatim by both files (§4.3):
`[curve.pointAtTime(t) for t in drange(0, 1, step)]`, as a function of the
caller-derived step. -/
def sample (curve : BezierPath) (step : ℚ) : PyResult (List Point) :=
  match drange 0 1 step with
  | some ts => PyResult.ok (ts.map curve.pointAtTime)
  | none => PyResult.diverge

/-- `curve_as_points` of `main.py` (interactive mode): `time_step = 1 / length`
(Python raises `ZeroDivisionError` when `length == 0`), then the sampling
loop, then `[[x, y] for (x, y) in zip([p.x for p in points], [p.y for p in points])]`. -/
def curve_as_points (curve : BezierPath) : PyResult (List (ℚ × ℚ)) :=
  if curve.length = 0 then PyResult.exn PyErr.zeroDivisionErr
  else
    match drange 0 1 (1 / curve.length) with
    | some ts =>
      let points := ts.map curve.pointAtTime
      PyResult.ok (List.zip (points.map Point.x) (points.map Point.y))
    | none => PyResult.diverge

/-- `curve_as_points` of `video_writer.py` (video mode):
`time_step = 1 / (curve.length * tpf)` (ZeroDivisionError when the product is
zero), then the same sampling loop, returning the points themselves. -/
def curve_as_points_video (curve : BezierPath) (tpf : ℚ) : PyResult (List Point) :=
  if curve.length * tpf = 0 then PyResult.exn PyErr.zeroDivisionErr
  else
    match drange 0 1 (1 / (curve.length * tpf)) with
    | some ts => PyResult.ok (ts.map curve.pointAtTime)
    | none => PyResult.diverge

/-- An interactive-mode record `{"x": x, "y": y}` of `save_curve_points`
(`main.py`). -/
structure InteractiveRec where
  x : ℚ
  y : ℚ
deriving DecidableEq, Repr

/-- A video-mode record `{"x": x, "y": y, "idx": i}` of `save_curve_points`
(`video_writer.py`). -/
structure VideoRec where
  x : ℚ
  y : ℚ
  idx : ℕ
deriving DecidableEq, Repr

/-- `save_curve_points` of `main.py`:
`pp = [{"x": x, "y": y} for x, y in self.points]` — the JSON value written
out, one record per point.  (The JSON text encoding of the record list is the
standard library's `json.dump`, outside the core.) -/
def save_curve_points (points : List (ℚ × ℚ)) : List InteractiveRec :=
  points.map fun p => ⟨p.1, p.2⟩

/-- The `enumerate(points)` comprehension of `save_curve_points`
(`video_writer.py`), with `i` the running index. -/
def saveVideoGo (i : ℕ) : List Point → List VideoRec
  | [] => []
  | p :: rest => ⟨p.x, p.y, i⟩ :: saveVideoGo (i + 1) rest

/-- `save_curve_points` of `video_writer.py`:
`pp = [{"x": point.x, "y": point.y, "idx": i} for i, point in enumerate(points)]`. -/
def save_curve_points_video (points : List Point) : List VideoRec :=
  saveVideoGo 0 points

/-- Serializer read-back failure (§4.4/§7: `DeserializationFormatError`). -/
inductive SerErr where
  | formatErr
deriving DecidableEq, Repr

/-- Modelled from the spec (§4.4): `read` for the interactive mode — the
repository contains no reader, so it is modelled from the serializer
contract: each `{x, y}` record yields the point `(x, y)` in order. -/
def read_curve_points (recs : List InteractiveRec) : List (ℚ × ℚ) :=
  recs.map fun r => (r.x, r.y)

/-- Index-checking walk of the video-mode reader. -/
def readVideoGo (i : ℕ) : List VideoRec → Except SerErr (List Point)
  | [] => Except.ok []
  | r :: rest =>
    if r.idx = i then
      match readVideoGo (i + 1) rest with
      | Except.ok ps => Except.ok (⟨r.x, r.y⟩ :: ps)
      | Except.error e => Except.error e
    else Except.error SerErr.formatErr

/-- Modelled from the spec (§4.4, §6): `read` for the video mode — the
repository contains no reader, so it is modelled from the serializer
contract: each `{x, y, idx}` record yields `(x, y)` in order, and `idx` must
be strictly increasing from 0 and match the array position, else
`DeserializationFormatError`. -/
def read_curve_points_video (recs : List VideoRec) : Except SerErr (List Point) :=
  readVideoGo 0 recs

/-- Modelled from the spec (§3): grouping of a node tail into segments, one
`"curve"` node alone giving a straight (degenerate-cubic) segment, an
`"offcurve", "offcurve", "curve"` triple giving a cubic segment.  Groupings
the repository's parser never produces end the walk. -/
def segsFrom (cur : Point) : List Node → List CubicSeg
  | [] => []
  | ⟨x, y, NodeType.curve⟩ :: rest =>
    ⟨cur, cur, ⟨x, y⟩, ⟨x, y⟩⟩ :: segsFrom ⟨x, y⟩ rest
  | ⟨x1, y1, NodeType.offcurve⟩ :: ⟨x2, y2, NodeType.offcurve⟩ ::
      ⟨x3, y3, NodeType.curve⟩ :: rest =>
    ⟨cur, ⟨x1, y1⟩, ⟨x2, y2⟩, ⟨x3, y3⟩⟩ :: segsFrom ⟨x3, y3⟩ rest
  | _ => []

/-- Modelled from the spec (§3, §4.2): `BezierPath.fromNodelist` of the
third-party beziers library, as seen at batch time — it assembles the node
list into segments and is not observed to raise on the node lists the
repository's parser produces. -/
def fromNodelist (nodes : List Node) : List CubicSeg :=
  match nodes with
  | [] => []
  | first :: rest => segsFrom ⟨first.x, first.y⟩ rest

/-- One input file of the batch loader: either the XML parse of the file
fails (`xml.etree.ElementTree.parse` raises, caught as `SyntaxError`), or it
yields the path string of its `d` attribute. -/
inductive SvgFile where
  | xmlBad
  | xmlOk (d : String)

/-- Whether the file is one whose XML parse fails. -/
def SvgFile.isXmlBad : SvgFile → Bool
  | SvgFile.xmlBad => true
  | _ => false

/-- The `for curve_idx, file_name in enumerate(glob.glob(...))` loop of
`create_curves` (`main.py`): per file, `ET.parse`/`parse_svg_str`/
`fromNodelist` run under `except SyntaxError` (print and skip) and
`except AssertionError` (print and skip).  Only those two exception kinds are
caught: a `ValueError` or `IndexError` raised by `parse_svg_str` escapes the
loop and aborts the whole batch.  (The `except AssertionError` arm is dead
code under this model: the one assert in reach, in `parse_svg_str`, asserts a
non-empty tuple and never fires.) -/
def createCurvesLoop (i : ℕ) : List SvgFile → Except PyErr (List (ℕ × List CubicSeg))
  | [] => Except.ok []
  | SvgFile.xmlBad :: rest => createCurvesLoop (i + 1) rest
  | SvgFile.xmlOk d :: rest =>
    match parse_svg_str d with
    | Except.error e => Except.error e
    | Except.ok nodes =>
      match createCurvesLoop (i + 1) rest with
      | Except.error e => Except.error e
      | Except.ok curves => Except.ok ((i, fromNodelist nodes) :: curves)

/-- `create_curves` of `main.py`: with no files, `sys.exit` is called; then
the loop; then `del root, path_svg, node_list`, which raises `NameError`
when no file's XML ever parsed (the variables were never assigned). -/
def create_curves (files : List SvgFile) : Except PyErr (List (ℕ × List CubicSeg)) :=
  if files.isEmpty then Except.error PyErr.systemExit
  else
    match createCurvesLoop 0 files with
    | Except.error e => Except.error e
    | Except.ok curves =>
      if files.all SvgFile.isXmlBad then Except.error PyErr.nameErr
      else Except.ok curves

/-! ### Helper lemmas about the sampling loop -/

/-- With a non-positive increment, the `drange` loop condition `x < y` stays
true forever: no amount of fuel makes the generator stop.  This backs reading
`drange _ _ jump = none` as non-termination of the Python loop. -/
theorem drangeFuel_nonpos (y jump : ℚ) (hj : jump ≤ 0) :
    ∀ (n : ℕ) (x : ℚ), x < y → drangeFuel y jump n x = none := by
  intro n
  induction n with
  | zero => intro x _; rfl
  | succ n ih =>
    intro x hxy
    have hx : x + jump < y := lt_of_le_of_lt (by linarith) hxy
    simp only [drangeFuel, if_pos hxy, ih (x + jump) hx, Option.map_none']

/-- With a positive increment, fuel exceeding `⌈(y-x)/jump⌉` suffices, and the
loop yields exactly the arithmetic progression `x, x+jump, …` of length
`⌈(y-x)/jump⌉`. -/
theorem drangeFuel_enough (y jump : ℚ) (hj : 0 < jump) :
    ∀ (n : ℕ) (x : ℚ), (⌈(y - x) / jump⌉).toNat < n →
      drangeFuel y jump n x
        = some ((List.range (⌈(y - x) / jump⌉).toNat).map
            fun i : ℕ => x + (i : ℚ) * jump) := by
  intro n
  induction n with
  | zero => intro x h; omega
  | succ n ih =>
    intro x h
    by_cases hxy : x < y
    · have hq : 0 < (y - x) / jump := div_pos (by linarith) hj
      have hm : 0 < ⌈(y - x) / jump⌉ := Int.ceil_pos.mpr hq
      have hstep : ⌈(y - (x + jump)) / jump⌉ = ⌈(y - x) / jump⌉ - 1 := by
        have hdiv : (y - (x + jump)) / jump = (y - x) / jump - 1 := by
          field_simp
          ring
        rw [hdiv, Int.ceil_sub_one]
      have htn : (⌈(y - x) / jump⌉).toNat = (⌈(y - (x + jump)) / jump⌉).toNat + 1 := by
        rw [hstep]; omega
      have hlt : (⌈(y - (x + jump)) / jump⌉).toNat < n := by omega
      simp only [drangeFuel, if_pos hxy, ih (x + jump) hlt, Option.map_some']
      rw [htn, List.range_succ_eq_map]
      simp only [List.map_cons, List.map_map, Nat.cast_zero, zero_mul, add_zero,
        Option.some.injEq, List.cons.injEq, true_and]
      apply List.map_congr_left
      intro i _
      simp only [Function.comp_apply]
      push_cast
      ring
    · have hy : y - x ≤ 0 := by linarith
      have hc : ⌈(y - x) / jump⌉ ≤ 0 := by
        rw [show (0 : ℤ) = ((0 : ℕ) : ℤ) by norm_num, Int.ceil_le]
        push_cast
        exact div_nonpos_of_nonpos_of_nonneg hy hj.le
      have h0 : (⌈(y - x) / jump⌉).toNat = 0 := by omega
      simp only [drangeFuel, if_neg hxy, h0, List.range_zero, List.map_nil]

/-- `drange` with a positive increment: the full arithmetic progression. -/
theorem drange_pos (x y jump : ℚ) (hj : 0 < jump) :
    drange x y jump
      = some ((List.range (⌈(y - x) / jump⌉).toNat).map
          fun i : ℕ => x + (i : ℚ) * jump) :=
  drangeFuel_enough y jump hj _ x (Nat.lt_succ_self _)

/-- `drange` with a non-positive increment diverges (for a non-trivial range). -/
theorem drange_nonpos (x y jump : ℚ) (hj : jump ≤ 0) (hxy : x < y) :
    drange x y jump = none :=
  drangeFuel_nonpos y jump hj _ x hxy

/-- The shared sampling loop with a positive step: points at
`t = 0, step, 2·step, …`, `⌈1/step⌉` of them. -/
theorem sample_pos (curve : BezierPath) (step : ℚ) (hs : 0 < step) :
    sample curve step
      = PyResult.ok ((List.range (⌈(1 : ℚ) / step⌉).toNat).map
          fun i : ℕ => curve.pointAtTime ((i : ℚ) * step)) := by
  unfold sample
  rw [drange_pos 0 1 step hs]
  simp only [sub_zero, List.map_map]
  congr 1
  apply List.map_congr_left
  intro i _
  simp only [Function.comp_apply, zero_add]

/-- The shared sampling loop with a non-positive step diverges. -/
theorem sample_nonpos (curve : BezierPath) (step : ℚ) (hs : step ≤ 0) :
    sample curve step = PyResult.diverge := by
  unfold sample
  rw [drange_nonpos 0 1 step hs one_pos]

/-! ### Helper lemmas about the parser -/

/-- The only exception the float-conversion loop raises is `ValueError`. -/
theorem floatsLoop_error_eq (toks : List (List Char)) (e : PyErr)
    (h : floatsLoop toks = Except.error e) : e = PyErr.valueError := by
  induction toks with
  | nil => simp [floatsLoop] at h
  | cons tok rest ih =>
    unfold floatsLoop at h
    cases hf : pyFloat tok with
    | none => rw [hf] at h; cases h; rfl
    | some v =>
      rw [hf] at h
      cases hr : floatsLoop rest with
      | error e2 => rw [hr] at h; injection h with h2; subst h2; exact ih hr
      | ok vs => rw [hr] at h; cases h

/-- An unparsable token makes the float-conversion loop raise `ValueError`. -/
theorem floatsLoop_bad (toks : List (List Char)) (tok : List Char)
    (ht : tok ∈ toks) (hbad : pyFloat tok = none) :
    floatsLoop toks = Except.error PyErr.valueError := by
  induction toks with
  | nil => cases ht
  | cons t0 rest ih =>
    unfold floatsLoop
    rcases List.mem_cons.mp ht with h | h
    · subst h; rw [hbad]
    · cases hf : pyFloat t0 with
      | none => rfl
      | some v => rw [ih h]

/-- The only exception the chunk loop raises is `ValueError`. -/
theorem chunksLoop_error_eq (ts : List (List Char)) (e : PyErr)
    (h : chunksLoop ts = Except.error e) : e = PyErr.valueError := by
  induction ts with
  | nil => simp [chunksLoop] at h
  | cons t0 rest ih =>
    unfold chunksLoop at h
    cases hc : parseChunk t0 with
    | error e2 =>
      rw [hc] at h
      injection h with h2
      rw [← h2]
      exact floatsLoop_error_eq _ _ hc
    | ok vs =>
      rw [hc] at h
      cases hr : chunksLoop rest with
      | error e2 => rw [hr] at h; injection h with h2; subst h2; exact ih hr
      | ok vss => rw [hr] at h; cases h

/-- A chunk containing an unparsable token makes the chunk loop raise
`ValueError` (whichever failing chunk comes first). -/
theorem chunksLoop_bad (ts : List (List Char)) (t : List Char)
    (ht : t ∈ ts) (hbad : parseChunk t = Except.error PyErr.valueError) :
    chunksLoop ts = Except.error PyErr.valueError := by
  induction ts with
  | nil => cases ht
  | cons t0 rest ih =>
    unfold chunksLoop
    rcases List.mem_cons.mp ht with h | h
    · subst h; rw [hbad]
    · cases hc : parseChunk t0 with
      | error e2 =>
        have he : e2 = PyErr.valueError := floatsLoop_error_eq _ _ hc
        subst he
        rfl
      | ok vs => rw [ih h]

/-- The only exception the node builder raises is `IndexError`. -/
theorem nodesOfChunk_error_eq (b : Bool) (p : List ℚ) (e : PyErr)
    (h : nodesOfChunk b p = Except.error e) : e = PyErr.indexError := by
  unfold nodesOfChunk at h
  cases b with
  | true =>
    rw [if_pos rfl] at h
    split at h
    · cases h
    · injection h with h2; rw [h2]
  | false =>
    rw [if_neg (by simp)] at h
    split at h
    · cases h
    · injection h with h2; rw [h2]

/-- A successful node build: the chunk was long enough and the nodes have the
positional shape (one anchor for a boundary chunk; control, control, anchor
for an interior one). -/
theorem nodesOfChunk_ok (b : Bool) (p : List ℚ) (ns : List Node)
    (h : nodesOfChunk b p = Except.ok ns) :
    ns = chunkShape b p ∧ (if b then 2 else 6) ≤ p.length := by
  unfold nodesOfChunk at h
  cases b with
  | true =>
    rw [if_pos rfl] at h
    split at h
    · injection h with h2
      constructor
      · rw [← h2]; simp [chunkShape]
      · simp
    · cases h
  | false =>
    rw [if_neg (by simp)] at h
    split at h
    · injection h with h2
      constructor
      · rw [← h2]; simp [chunkShape]
      · simp
    · cases h

/-- An interior chunk with fewer than six floats always fails the node build
with `IndexError`. -/
theorem nodesOfChunk_false_short (p : List ℚ) (hlen : p.length < 6) :
    nodesOfChunk false p = Except.error PyErr.indexError := by
  unfold nodesOfChunk
  rw [if_neg (by simp)]
  split
  · exfalso
    simp only [List.length_cons] at hlen
    omega
  · rfl

/-- If some interior chunk is shorter than six floats, the node-building loop
raises `IndexError` (possibly at an even earlier failing chunk). -/
theorem nodesLoop_short (n : ℕ) :
    ∀ (i : ℕ) (ps : List (List ℚ)) (j : ℕ) (p : List ℚ),
      ps.get? j = some p → i + j ≠ 0 → i + j ≠ n - 1 → p.length < 6 →
      nodesLoop n i ps = Except.error PyErr.indexError := by
  intro i ps
  induction ps generalizing i with
  | nil => intro j p hget _ _ _; simp at hget
  | cons p0 rest ih =>
    intro j p hget hne0 hnel hlen
    unfold nodesLoop
    cases j with
    | zero =>
      simp only [List.get?_cons_zero, Option.some.injEq] at hget
      subst hget
      have hb : (i == 0 || i == n - 1) = false := by
        simp only [Bool.or_eq_false_iff, beq_eq_false_iff_ne]
        omega
      rw [hb, nodesOfChunk_false_short _ (by omega)]
    | succ j2 =>
      simp only [List.get?_cons_succ] at hget
      cases hc : nodesOfChunk (i == 0 || i == n - 1) p0 with
      | error e =>
        have he := nodesOfChunk_error_eq _ _ _ hc
        subst he
        rfl
      | ok ns =>
        rw [ih (i + 1) j2 p hget (by omega) (by omega) hlen]

/-- A successful node-building loop yields exactly the chunk shapes in order,
and every chunk was long enough for its role. -/
theorem nodesLoop_ok (n : ℕ) :
    ∀ (i : ℕ) (ps : List (List ℚ)) (ns : List Node),
      nodesLoop n i ps = Except.ok ns →
      ns = chunkShapeList n i ps ∧
        ∀ (j : ℕ) (p : List ℚ), ps.get? j = some p →
          (if ((i + j) == 0 || (i + j) == n - 1) then 2 else 6) ≤ p.length := by
  intro i ps
  induction ps generalizing i with
  | nil =>
    intro ns h
    simp only [nodesLoop] at h
    injection h with h2
    constructor
    · rw [← h2]; rfl
    · intro j p hget; simp at hget
  | cons p0 rest ih =>
    intro ns h
    unfold nodesLoop at h
    cases hc : nodesOfChunk (i == 0 || i == n - 1) p0 with
    | error e => rw [hc] at h; cases h
    | ok ns0 =>
      rw [hc] at h
      cases hr : nodesLoop n (i + 1) rest with
      | error e => rw [hr] at h; cases h
      | ok ns1 =>
        rw [hr] at h
        injection h with h2
        obtain ⟨hshape0, hlen0⟩ := nodesOfChunk_ok _ _ _ hc
        obtain ⟨hshape1, hlen1⟩ := ih (i + 1) ns1 hr
        constructor
        · rw [← h2, hshape0, hshape1]; rfl
        · intro j p hget
          cases j with
          | zero =>
            simp only [List.get?_cons_zero, Option.some.injEq] at hget
            subst hget
            simpa using hlen0
          | succ j2 =>
            simp only [List.get?_cons_succ] at hget
            have := hlen1 j2 p hget
            have harith : i + 1 + j2 = i + (j2 + 1) := by omega
            rw [harith] at this
            exact this

/-- Every chunk shape ends in an on-curve (`"curve"`) node: a boundary
singleton is one, and an interior triple ends with one. -/
theorem chunkShape_getLast (b : Bool) (p : List ℚ) (nd : Node)
    (h : (chunkShape b p).getLast? = some nd) : nd.type = NodeType.curve := by
  cases b with
  | true =>
    have hv : (chunkShape true p).getLast?
        = some ⟨p.getD 0 0, p.getD 1 0, NodeType.curve⟩ := rfl
    rw [hv] at h
    injection h with h2
    rw [← h2]
  | false =>
    have hv : (chunkShape false p).getLast?
        = some ⟨p.getD 4 0, p.getD 5 0, NodeType.curve⟩ := rfl
    rw [hv] at h
    injection h with h2
    rw [← h2]

/-- Every non-empty chunk-shape list ends in an on-curve (`"curve"`) node. -/
theorem chunkShapeList_getLast (n : ℕ) :
    ∀ (i : ℕ) (ps : List (List ℚ)) (nd : Node),
      (chunkShapeList n i ps).getLast? = some nd → nd.type = NodeType.curve := by
  intro i ps
  induction ps generalizing i with
  | nil => intro nd h; simp [chunkShapeList] at h
  | cons p0 rest ih =>
    intro nd h
    unfold chunkShapeList at h
    by_cases hrest : chunkShapeList n (i + 1) rest = []
    · rw [hrest, List.append_nil] at h
      exact chunkShape_getLast _ _ _ h
    · rw [List.getLast?_append_of_ne_nil _ hrest] at h
      exact ih (i + 1) nd h

/-- The head of the whole chunk-shape list (at starting index 0) is an
on-curve (`"curve"`) node: the first chunk is a boundary chunk. -/
theorem chunkShapeList_head (n : ℕ) (ps : List (List ℚ)) (nd : Node)
    (h : (chunkShapeList n 0 ps).head? = some nd) : nd.type = NodeType.curve := by
  cases ps with
  | nil => simp [chunkShapeList] at h
  | cons p0 rest =>
    unfold chunkShapeList chunkShape at h
    simp at h
    rw [← h]

/-! ### Helper lemmas about the serializer and the sampler output shape -/

/-- Reading back the index-tagged records written from any starting index
recovers the point list: the writer tags record `k` with index `i + k` and
the reader checks exactly that. -/
theorem readVideoGo_saveVideoGo (pts : List Point) :
    ∀ i : ℕ, readVideoGo i (saveVideoGo i pts) = Except.ok pts := by
  induction pts with
  | nil => intro i; rfl
  | cons p rest ih =>
    intro i
    unfold saveVideoGo readVideoGo
    rw [if_pos rfl, ih (i + 1)]

/-- The interactive reader inverts the interactive writer. -/
theorem read_save_interactive (pts : List (ℚ × ℚ)) :
    read_curve_points (save_curve_points pts) = pts := by
  induction pts with
  | nil => rfl
  | cons p rest ih =>
    unfold read_curve_points save_curve_points at *
    simp only [List.map_cons, List.map_map] at *
    rw [ih]

/-- The source's `zip([p.x for p in points], [p.y for p in points])` is the
coordinate-pair list of the points. -/
theorem zip_map_pair (pts : List Point) :
    List.zip (pts.map Point.x) (pts.map Point.y) = pts.map fun p => (p.x, p.y) := by
  induction pts with
  | nil => rfl
  | cons p rest ih => simp only [List.map_cons, List.zip_cons_cons, ih]

/-- Every parameter yielded by `drange(0, 1, s)` for a positive step lies in
`[0, 1)`: the loop stops strictly before `t ≥ 1`. -/
theorem drange_mem_lt (s t : ℚ) (hs : 0 < s) (ts : List ℚ)
    (hts : drange 0 1 s = some ts) (ht : t ∈ ts) : 0 ≤ t ∧ t < 1 := by
  rw [drange_pos 0 1 s hs] at hts
  injection hts with h2
  subst h2
  obtain ⟨i, hi, rfl⟩ := List.mem_map.mp ht
  rw [List.mem_range] at hi
  constructor
  · positivity
  · have hpos : 0 < ⌈(1 - 0 : ℚ) / s⌉ := Int.ceil_pos.mpr (by positivity)
    have hilt : (i : ℤ) < ⌈(1 - 0 : ℚ) / s⌉ := by omega
    have hq : (i : ℚ) < (1 - 0) / s := Int.lt_ceil.mp (by exact_mod_cast hilt)
    rw [sub_zero] at hq
    have := (lt_div_iff₀ hs).mp hq
    linarith

/-! ### Concrete models for witnesses and counterexamples -/

/-- The spec's concrete scenario path: one cubic segment with anchors `(0,0)`
and `(10,0)` and controls `(0,10)` and `(10,10)`.  Its memoized arc length is
carried as the (positive) value 20; no claim depends on the numeric value. -/
def specCurve : BezierPath :=
  ⟨[(⟨⟨0, 0⟩, ⟨0, 10⟩, ⟨10, 10⟩, ⟨10, 0⟩⟩, 20)]⟩

/-- A degenerate single-point path of arc length zero. -/
def degenCurve : BezierPath :=
  ⟨[(⟨⟨5, 5⟩, ⟨5, 5⟩, ⟨5, 5⟩, ⟨5, 5⟩⟩, 0)]⟩

theorem specCurve_length : specCurve.length = 20 := by
  simp [specCurve, BezierPath.length]

theorem degenCurve_length : degenCurve.length = 0 := by
  simp [degenCurve, BezierPath.length]

/-- On the single-segment model the global parameter is the segment's local
parameter. -/
theorem specCurve_pointAtTime (t : ℚ) :
    specCurve.pointAtTime t
      = bezierAt ⟨⟨0, 0⟩, ⟨0, 10⟩, ⟨10, 10⟩, ⟨10, 0⟩⟩ t := by
  unfold BezierPath.pointAtTime
  rw [specCurve_length]
  show pointAtTimeGo [(⟨⟨0, 0⟩, ⟨0, 10⟩, ⟨10, 10⟩, ⟨10, 0⟩⟩, 20)] (t * 20) = _
  unfold pointAtTimeGo
  rw [if_neg (by norm_num)]
  congr 1
  field_simp

/-- The spec scenario evaluated: sampling the one-segment cubic at step 1/4
gives the four points at t = 0, 1/4, 1/2, 3/4. -/
theorem sample_specCurve_quarter :
    sample specCurve (1 / 4)
      = PyResult.ok [⟨0, 0⟩, ⟨25 / 16, 45 / 8⟩, ⟨5, 15 / 2⟩, ⟨135 / 16, 45 / 8⟩] := by
  rw [sample_pos _ _ (by norm_num)]
  have hc4 : ⌈(1 : ℚ) / (1 / 4)⌉ = 4 := by norm_num
  have hc : (⌈(1 : ℚ) / (1 / 4)⌉).toNat = 4 := by rw [hc4]; rfl
  rw [hc]
  have hr : List.range 4 = [0, 1, 2, 3] := rfl
  rw [hr]
  simp only [List.map_cons, List.map_nil, specCurve_pointAtTime]
  unfold bezierAt
  norm_num

/-- `drange(0, 1, 1/2)` evaluated, for use as a concrete instantiation. -/
theorem drange_half : drange 0 1 (1 / 2 : ℚ) = some [0, 1 / 2] := by
  rw [drange_pos 0 1 (1 / 2) (by norm_num)]
  have h2 : ⌈(1 - 0 : ℚ) / (1 / 2)⌉ = 2 := by norm_num
  rw [show (⌈(1 - 0 : ℚ) / (1 / 2)⌉).toNat = 2 by rw [h2]; rfl]
  have hr : List.range 2 = [0, 1] := rfl
  rw [hr]
  norm_num

/-! ### The claims -/

/-- C1, counterexample: on the one-segment cubic with step 3/10 the sampler
yields the 4 points at t = 0, 3/10, 3/5, 9/10, but `floor(1/(3/10)) = 3` —
the claimed count `floor(1/s)` is wrong for every step not dividing 1. -/
theorem c1_count_counterexample :
    sample specCurve (3 / 10)
        = PyResult.ok ((List.range 4).map
            fun i : ℕ => specCurve.pointAtTime ((i : ℚ) * (3 / 10)))
      ∧ ((List.range 4).map
            fun i : ℕ => specCurve.pointAtTime ((i : ℚ) * (3 / 10))).length = 4
      ∧ (⌊(1 : ℚ) / (3 / 10)⌋).toNat = 3 := by
  refine ⟨?_, by simp, ?_⟩
  · rw [sample_pos _ _ (by norm_num)]
    have h1 : ⌈(1 : ℚ) / (3 / 10)⌉ = 4 := by
      rw [Int.ceil_eq_iff]
      norm_num
    rw [show (⌈(1 : ℚ) / (3 / 10)⌉).toNat = 4 by rw [h1]; rfl]
  · rw [show ⌊(1 : ℚ) / (3 / 10)⌋ = 3 by norm_num]; rfl

/-- C1, amended: for every model and every step `s` with `0 < s < 1`, the
sampler yields exactly `⌈1/s⌉` points (which equals `⌊1/s⌋` exactly when `s`
divides 1), and the point at array index `i` is the curve position at global
parameter `t = i·s`. -/
theorem c1_sample_count (curve : BezierPath) (s : ℚ) (h0 : 0 < s) (h1 : s < 1) :
    sample curve s
      = PyResult.ok ((List.range (⌈(1 : ℚ) / s⌉).toNat).map
          fun i : ℕ => curve.pointAtTime ((i : ℚ) * s)) :=
  sample_pos curve s h0

/-- C1, witness at `s = 1/4` on the one-segment cubic. -/
theorem c1_sample_count_witness :
    sample specCurve (1 / 4)
      = PyResult.ok ((List.range (⌈(1 : ℚ) / (1 / 4)⌉).toNat).map
          fun i : ℕ => specCurve.pointAtTime ((i : ℚ) * (1 / 4))) :=
  c1_sample_count specCurve (1 / 4) (by norm_num) (by norm_num)

/-- C2: every parameter yielded by the sampler's `drange(0, 1, s)` loop is
strictly below 1 (the `t = 1` anchor is never appended); and concretely, the
one-cubic-segment path with anchors `(0,0)`, `(10,0)` and controls `(0,10)`,
`(10,10)` sampled at step 1/4 yields exactly 4 points, the first `(0,0)` and
none equal to `(10,0)`. -/
theorem c2_stop_before_one :
    (∀ (s : ℚ) (ts : List ℚ), 0 < s → drange 0 1 s = some ts →
        ∀ t ∈ ts, t < 1)
      ∧ sample specCurve (1 / 4)
          = PyResult.ok [⟨0, 0⟩, ⟨25 / 16, 45 / 8⟩, ⟨5, 15 / 2⟩, ⟨135 / 16, 45 / 8⟩]
      ∧ ([⟨0, 0⟩, ⟨25 / 16, 45 / 8⟩, ⟨5, 15 / 2⟩,
          ⟨135 / 16, 45 / 8⟩] : List Point).length = 4
      ∧ ([⟨0, 0⟩, ⟨25 / 16, 45 / 8⟩, ⟨5, 15 / 2⟩,
          ⟨135 / 16, 45 / 8⟩] : List Point).head? = some ⟨0, 0⟩
      ∧ (⟨10, 0⟩ : Point) ∉ ([⟨0, 0⟩, ⟨25 / 16, 45 / 8⟩, ⟨5, 15 / 2⟩,
          ⟨135 / 16, 45 / 8⟩] : List Point) := by
  refine ⟨?_, sample_specCurve_quarter, rfl, rfl, ?_⟩
  · intro s ts hs hts t ht
    exact (drange_mem_lt s t hs ts hts ht).2
  · simp only [List.mem_cons, List.not_mem_nil, or_false, Point.mk.injEq]
    norm_num

/-- C2, witness: the stop-before-1 clause applied at step 1/2 and t = 1/2. -/
theorem c2_stop_before_one_witness : ((1 : ℚ) / 2) < 1 :=
  c2_stop_before_one.1 (1 / 2) [0, 1 / 2] (by norm_num) drange_half (1 / 2) (by simp)

/-- C3, counterexample: the bare move-to string `"M"` parses to the empty
node sequence with no error — it does not raise. -/
theorem c3_malformed_counterexample : parse_svg_str "M" = Except.ok [] := by decide

/-- C3, amended: the parser fails with `ValueError` whenever a retained chunk
(text longer than one character) holds a token that does not parse as a
float; when every token parses, it fails with `IndexError` whenever some
interior chunk supplies fewer than six values; and the bare `"M"` parses to
the empty node sequence without error (no dedicated `MalformedPathError`
exists — the failures are the ordinary Python exceptions). -/
theorem c3_malformed_amended :
    (∀ (svg : String) (t tok : List Char),
        t ∈ (chunkTexts svg.data).filter (fun c => c.length > 1) →
        tok ∈ tokensOf t → pyFloat tok = none →
        parse_svg_str svg = Except.error PyErr.valueError)
      ∧ (∀ (svg : String) (paths : List (List ℚ)) (j : ℕ) (p : List ℚ),
          parsePaths svg.data = Except.ok paths →
          paths.get? j = some p → j ≠ 0 → j ≠ paths.length - 1 → p.length < 6 →
          parse_svg_str svg = Except.error PyErr.indexError)
      ∧ parse_svg_str "M" = Except.ok [] := by
  refine ⟨?_, ?_, by decide⟩
  · intro svg t tok ht htok hbad
    have hchunk : parseChunk t = Except.error PyErr.valueError :=
      floatsLoop_bad _ tok htok hbad
    have hpaths : parsePaths svg.data = Except.error PyErr.valueError :=
      chunksLoop_bad _ t ht hchunk
    unfold parse_svg_str
    rw [hpaths]
  · intro svg paths j p hpaths hget hj0 hjl hlen
    unfold parse_svg_str
    rw [hpaths]
    exact nodesLoop_short paths.length 0 paths j p hget (by omega) (by omega) hlen

/-- C3, witness: an unparsable token raises `ValueError`; a five-value
curve-to chunk raises `IndexError`. -/
theorem c3_malformed_witness :
    parse_svg_str "M0 0 Cab cd L9 9" = Except.error PyErr.valueError
      ∧ parse_svg_str "M0 0 C1 2 3 4 5 L9 9" = Except.error PyErr.indexError := by
  constructor
  · exact c3_malformed_amended.1 "M0 0 Cab cd L9 9" ['a', 'b', ' ', 'c', 'd']
      ['a', 'b'] (by decide) (by decide) (by decide)
  · exact c3_malformed_amended.2.1 "M0 0 C1 2 3 4 5 L9 9"
      [[0, 0], [1, 2, 3, 4, 5], [9, 9]] 1 [1, 2, 3, 4, 5]
      (by decide) (by decide) (by decide) (by decide) (by decide)

/-- C4, counterexample: on the zero-length single-point path, sampling raises
`ZeroDivisionError` while deriving the step — it does not return an empty
Motion Path. -/
theorem c4_degenerate_counterexample :
    curve_as_points degenCurve = PyResult.exn PyErr.zeroDivisionErr
      ∧ curve_as_points degenCurve ≠ PyResult.ok [] := by
  have h : curve_as_points degenCurve = PyResult.exn PyErr.zeroDivisionErr := by
    unfold curve_as_points
    rw [if_pos degenCurve_length]
  exact ⟨h, by simp [h]⟩

/-- C4, amended: a zero-length model makes the interactive sampler raise
`ZeroDivisionError` at `1 / length`; a positive-length model always produces
a successful, non-empty Motion Path whose first point is the curve position
at `t = 0` — the sampler never returns zero points and never loops for a
positive length. -/
theorem c4_degenerate_amended :
    (∀ curve : BezierPath, curve.length = 0 →
        curve_as_points curve = PyResult.exn PyErr.zeroDivisionErr)
      ∧ ∀ curve : BezierPath, 0 < curve.length →
          (curve_as_points curve).okHead
            = some ((curve.pointAtTime 0).x, (curve.pointAtTime 0).y) := by
  constructor
  · intro curve h
    unfold curve_as_points
    rw [if_pos h]
  · intro curve h
    have hstep : 0 < 1 / curve.length := by positivity
    unfold curve_as_points
    rw [if_neg (by linarith), drange_pos 0 1 _ hstep]
    have h1 : (1 - 0 : ℚ) / (1 / curve.length) = curve.length := by
      rw [sub_zero, one_div_one_div]
    have hm : (⌈(1 - 0 : ℚ) / (1 / curve.length)⌉).toNat ≠ 0 := by
      have hp : 0 < ⌈(1 - 0 : ℚ) / (1 / curve.length)⌉ := by
        rw [h1]; exact Int.ceil_pos.mpr h
      omega
    obtain ⟨k, hk⟩ := Nat.exists_eq_succ_of_ne_zero hm
    rw [hk, List.range_succ_eq_map]
    simp [PyResult.okHead, zip_map_pair]

/-- C4, witness: the two clauses at the degenerate and the one-segment
models. -/
theorem c4_degenerate_witness :
    curve_as_points degenCurve = PyResult.exn PyErr.zeroDivisionErr
      ∧ (curve_as_points specCurve).okHead
          = some ((specCurve.pointAtTime 0).x, (specCurve.pointAtTime 0).y) :=
  ⟨c4_degenerate_amended.1 degenCurve degenCurve_length,
   c4_degenerate_amended.2 specCurve (by rw [specCurve_length]; norm_num)⟩

/-- C5, counterexample: at the non-positive step `-1` the sampler diverges
(the loop never terminates) — it does not fail with any error. -/
theorem c5_nonpositive_step_counterexample :
    sample specCurve (-1) = PyResult.diverge :=
  sample_nonpos specCurve (-1) (by norm_num)

/-- C5, amended: the sampler performs no step validation; with `step ≤ 0` the
`drange` loop never terminates (no fuel makes it stop), so sampling diverges
instead of failing with an `InvalidStepError` (no such error exists in the
code). -/
theorem c5_nonpositive_step (curve : BezierPath) (step : ℚ) (hs : step ≤ 0) :
    sample curve step = PyResult.diverge
      ∧ ∀ n : ℕ, drangeFuel 1 step n 0 = none :=
  ⟨sample_nonpos curve step hs, fun n => drangeFuel_nonpos 1 step hs n 0 one_pos⟩

/-- C5, witness at step 0 on the one-segment cubic. -/
theorem c5_nonpositive_step_witness : sample specCurve 0 = PyResult.diverge :=
  (c5_nonpositive_step specCurve 0 le_rfl).1

/-- C6: in both serialization modes, reading back a written non-empty point
sequence returns it unchanged (coordinates are rationals, so every input is
finite-coordinate). -/
theorem c6_roundtrip (pts : List (ℚ × ℚ)) (qts : List Point)
    (hp : pts ≠ []) (hq : qts ≠ []) :
    read_curve_points (save_curve_points pts) = pts
      ∧ read_curve_points_video (save_curve_points_video qts) = Except.ok qts :=
  ⟨read_save_interactive pts, readVideoGo_saveVideoGo qts 0⟩

/-- C6, witness on one-point sequences. -/
theorem c6_roundtrip_witness :
    read_curve_points (save_curve_points [(1, 2)]) = [(1, 2)]
      ∧ read_curve_points_video (save_curve_points_video [⟨3, 4⟩])
          = Except.ok [⟨3, 4⟩] :=
  c6_roundtrip [(1, 2)] [⟨3, 4⟩] (by simp) (by simp)

/-- C7, counterexample: a batch holding a parse-failing path file followed by
a well-formed one aborts with the `ValueError` — the model of the well-formed
path is not returned and the failure is not recorded-and-skipped. -/
theorem c7_batch_counterexample :
    create_curves [SvgFile.xmlOk "M0 0 Cq w e r t y L9 9",
        SvgFile.xmlOk "M0 0 C1 2 3 4 5 6 L9 9"]
      = Except.error PyErr.valueError := by decide

/-- C7, amended: only a file whose XML parse raises `SyntaxError` is skipped
(the loop continues with the remaining files); a `parse_svg_str` failure
(`ValueError`/`IndexError`) propagates out of the loop and aborts the whole
batch, so later paths are not processed. -/
theorem c7_batch_propagation :
    (∀ (i : ℕ) (rest : List SvgFile),
        createCurvesLoop i (SvgFile.xmlBad :: rest) = createCurvesLoop (i + 1) rest)
      ∧ ∀ (i : ℕ) (d : String) (rest : List SvgFile) (e : PyErr),
          parse_svg_str d = Except.error e →
          createCurvesLoop i (SvgFile.xmlOk d :: rest) = Except.error e := by
  constructor
  · intro i rest; rfl
  · intro i d rest e h
    unfold createCurvesLoop
    rw [h]

/-- C7, witness: a trailing well-formed path does not save the batch from an
earlier parse failure. -/
theorem c7_batch_propagation_witness :
    createCurvesLoop 0 [SvgFile.xmlOk "M0 0 Cq w e r t y L9 9",
        SvgFile.xmlOk "M0 0 C1 2 3 4 5 6 L9 9"]
      = Except.error PyErr.valueError :=
  c7_batch_propagation.2 0 "M0 0 Cq w e r t y L9 9"
    [SvgFile.xmlOk "M0 0 C1 2 3 4 5 6 L9 9"] PyErr.valueError (by decide)

/-- C8, counterexample: the interior chunk of
`"M0 0 L1 2 3 4 5 6 L9 9"` comes from a line-to command, yet it is parsed
into two `Control` (offcurve) nodes and one `Anchor` — not into a single
`Anchor` as the claim states (the parser discards the command letters, so
line and curve chunks are indistinguishable). -/
theorem c8_line_chunk_counterexample :
    parse_svg_str "M0 0 L1 2 3 4 5 6 L9 9"
      = Except.ok [⟨0, 0, NodeType.curve⟩, ⟨1, 2, NodeType.offcurve⟩,
          ⟨3, 4, NodeType.offcurve⟩, ⟨5, 6, NodeType.curve⟩,
          ⟨9, 9, NodeType.curve⟩] := by decide

/-- C8, amended: on every successful parse, the first and the last node are
`Anchor`s, the node list is exactly the per-chunk shapes in source order —
boundary chunks give one `Anchor`, every interior chunk (line-to or curve-to
alike) gives `Control, Control, Anchor` from its first six values — and every
interior chunk supplied at least six values. -/
theorem c8_structure (svg : String) (nodes : List Node)
    (h : parse_svg_str svg = Except.ok nodes) :
    (∀ nd, nodes.head? = some nd → nd.type = NodeType.curve)
      ∧ (∀ nd, nodes.getLast? = some nd → nd.type = NodeType.curve)
      ∧ ∀ paths, parsePaths svg.data = Except.ok paths →
          nodes = chunkShapeList paths.length 0 paths
            ∧ ∀ (j : ℕ) (p : List ℚ), paths.get? j = some p →
                j ≠ 0 → j ≠ paths.length - 1 → 6 ≤ p.length := by
  unfold parse_svg_str at h
  cases hp : parsePaths svg.data with
  | error e => rw [hp] at h; cases h
  | ok paths0 =>
    rw [hp] at h
    obtain ⟨hshape, hlen⟩ := nodesLoop_ok paths0.length 0 paths0 nodes h
    refine ⟨?_, ?_, ?_⟩
    · intro nd hnd
      rw [hshape] at hnd
      exact chunkShapeList_head _ _ _ hnd
    · intro nd hnd
      rw [hshape] at hnd
      exact chunkShapeList_getLast _ _ _ _ hnd
    · intro paths hpaths
      injection hpaths with h2
      subst h2
      refine ⟨hshape, ?_⟩
      intro j p hget hj0 hjl
      have hle := hlen j p hget
      have hb : ((0 + j) == 0 || (0 + j) == paths0.length - 1) = false := by
        simp only [Bool.or_eq_false_iff, beq_eq_false_iff_ne]
        omega
      rw [hb] at hle
      simpa using hle

/-- C8, witness on `"M0 0 C1 2 3 4 5 6 L9 9"`: the parsed node list is the
chunk-shape list of its three chunks. -/
theorem c8_structure_witness :
    ([⟨0, 0, NodeType.curve⟩, ⟨1, 2, NodeType.offcurve⟩, ⟨3, 4, NodeType.offcurve⟩,
      ⟨5, 6, NodeType.curve⟩, ⟨9, 9, NodeType.curve⟩] : List Node)
      = chunkShapeList 3 0 [[0, 0], [1, 2, 3, 4, 5, 6], [9, 9]] :=
  ((c8_structure "M0 0 C1 2 3 4 5 6 L9 9"
      [⟨0, 0, NodeType.curve⟩, ⟨1, 2, NodeType.offcurve⟩, ⟨3, 4, NodeType.offcurve⟩,
       ⟨5, 6, NodeType.curve⟩, ⟨9, 9, NodeType.curve⟩] (by decide)).2.2
    [[0, 0], [1, 2, 3, 4, 5, 6], [9, 9]] (by decide)).1

/-- C9: the interactive sampler is the shared stepping algorithm at step
`1 / length` (its points flattened to coordinate pairs), and the video
sampler is the same algorithm at step `1 / (length · tpf)`. -/
theorem c9_step_formula (curve : BezierPath) (tpf : ℚ)
    (hl : curve.length ≠ 0) (hlt : curve.length * tpf ≠ 0) :
    curve_as_points curve
        = PyResult.map (List.map fun p => (p.x, p.y))
            (sample curve (1 / curve.length))
      ∧ curve_as_points_video curve tpf
          = sample curve (1 / (curve.length * tpf)) := by
  constructor
  · unfold curve_as_points sample
    rw [if_neg hl]
    cases drange 0 1 (1 / curve.length) with
    | some ts =>
      show PyResult.ok (List.zip ((ts.map curve.pointAtTime).map Point.x)
          ((ts.map curve.pointAtTime).map Point.y))
        = PyResult.map (List.map fun p => (p.x, p.y))
            (PyResult.ok (ts.map curve.pointAtTime))
      rw [zip_map_pair]
      rfl
    | none => rfl
  · unfold curve_as_points_video sample
    rw [if_neg hlt]

/-- C9, witness on the one-segment cubic with `tpf = 2`. -/
theorem c9_step_formula_witness :
    curve_as_points specCurve
        = PyResult.map (List.map fun p => (p.x, p.y))
            (sample specCurve (1 / specCurve.length))
      ∧ curve_as_points_video specCurve 2
          = sample specCurve (1 / (specCurve.length * 2)) :=
  c9_step_formula specCurve 2 (by rw [specCurve_length]; norm_num)
    (by rw [specCurve_length]; norm_num)

/-- C10: with a positive-length model and a step strictly between 0 and 1,
the sampled sequence is successfully produced, non-empty, and its first
element is the curve position at global parameter `t = 0` (the generator
yields 0 before any increment). -/
theorem c10_first_point (curve : BezierPath) (s : ℚ)
    (hl : 0 < curve.length) (h0 : 0 < s) (h1 : s < 1) :
    (sample curve s).okHead = some (curve.pointAtTime 0) := by
  rw [sample_pos curve s h0]
  have hm : (⌈(1 : ℚ) / s⌉).toNat ≠ 0 := by
    have : 0 < ⌈(1 : ℚ) / s⌉ := Int.ceil_pos.mpr (by positivity)
    omega
  obtain ⟨k, hk⟩ := Nat.exists_eq_succ_of_ne_zero hm
  rw [hk, List.range_succ_eq_map]
  simp [PyResult.okHead]

/-- C10, witness at step 1/4 on the one-segment cubic. -/
theorem c10_first_point_witness :
    (sample specCurve (1 / 4)).okHead = some (specCurve.pointAtTime 0) :=
  c10_first_point specCurve (1 / 4) (by rw [specCurve_length]; norm_num)
    (by norm_num) (by norm_num)

end StimuliGen
